import Mathlib

/-!
Verification of the error-translation core of the grpc-gateway runtime
(`runtime/errors.go`): the status translators `HTTPStatusStringFromCode`
and `HTTPStatusFromCode`, the error renderer `DefaultHTTPError`, and the
plain-text fallback `DefaultOtherErrorHandler`, shallowly embedded as
pure Lean functions over an explicit response-writer state.
-/

namespace GrpcGateway

-- gRPC status codes (`google.golang.org/grpc/codes`): a `uint32`
-- enumeration with the standard numeric values, modelled as `Nat`.
namespace codes

def OK : Nat := 0

def Canceled : Nat := 1

def Unknown : Nat := 2

def InvalidArgument : Nat := 3

def DeadlineExceeded : Nat := 4

def NotFound : Nat := 5

def AlreadyExists : Nat := 6

def PermissionDenied : Nat := 7

def ResourceExhausted : Nat := 8

def FailedPrecondition : Nat := 9

def Aborted : Nat := 10

def OutOfRange : Nat := 11

def Unimplemented : Nat := 12

def Internal : Nat := 13

def Unavailable : Nat := 14

def DataLoss : Nat := 15

def Unauthenticated : Nat := 16

end codes

-- HTTP status constants from `net/http` used by `HTTPStatusFromCode`.
namespace http

def StatusOK : Nat := 200

def StatusRequestTimeout : Nat := 408

def StatusInternalServerError : Nat := 500

def StatusBadRequest : Nat := 400

def StatusNotFound : Nat := 404

def StatusConflict : Nat := 409

def StatusForbidden : Nat := 403

def StatusUnauthorized : Nat := 401

def StatusPreconditionFailed : Nat := 412

def StatusNotImplemented : Nat := 501

def StatusServiceUnavailable : Nat := 503

end http

-- String constants of `runtime/errors.go` (the status tokens).

def OK : String := "OK"

def InvalidArgument : String := "INVALID_ARGUMENT"

def FailedPrecondition : String := "FAILED_PRECONDITION"

def OutOfRange : String := "OUT_OF_RANGE"

def Unauthenticated : String := "UNAUTHENTICATED"

def PermissionDenied : String := "PERMISSION_DENIED"

def NotFound : String := "NOT_FOUND"

def Aborted : String := "ABORTED"

def AlreadyExists : String := "ALREADY_EXISTS"

def ResourceExhausted : String := "RESOURCE_EXHAUSTED"

def Canceled : String := "CANCELLED"

def DataLoss : String := "DATA_LOSS"

def Unknown : String := "UNKNOWN"

def Internal : String := "INTERNAL"

def NotImplemented : String := "NOT_IMPLEMENTED"

def Unavailable : String := "UNAVAILABLE"

def DeadlineExceeded : String := "DEADLINE_EXCEEDED"

/-- Embedding of `HTTPStatusStringFromCode` from `runtime/errors.go`: the Go `switch`
over the code, falling through to `Internal` for unknown codes (the Go
function also logs a diagnostic there, which the model omits). -/
def HTTPStatusStringFromCode (code : Nat) : String :=
  if code = codes.OK then OK
  else if code = codes.Canceled then Canceled
  else if code = codes.Unknown then Unknown
  else if code = codes.InvalidArgument then InvalidArgument
  else if code = codes.DeadlineExceeded then DeadlineExceeded
  else if code = codes.NotFound then NotFound
  else if code = codes.AlreadyExists then AlreadyExists
  else if code = codes.PermissionDenied then PermissionDenied
  else if code = codes.Unauthenticated then Unauthenticated
  else if code = codes.ResourceExhausted then ResourceExhausted
  else if code = codes.FailedPrecondition then FailedPrecondition
  else if code = codes.Aborted then Aborted
  else if code = codes.OutOfRange then OutOfRange
  else if code = codes.Unimplemented then NotImplemented
  else if code = codes.Internal then Internal
  else if code = codes.Unavailable then Unavailable
  else if code = codes.DataLoss then DataLoss
  else Internal

/-- Embedding of `HTTPStatusFromCode` from `runtime/errors.go`: converts a gRPC code
into the corresponding HTTP response status, with the
`StatusInternalServerError` fallback for unknown codes. -/
def HTTPStatusFromCode (code : Nat) : Nat :=
  if code = codes.OK then http.StatusOK
  else if code = codes.Canceled then http.StatusRequestTimeout
  else if code = codes.Unknown then http.StatusInternalServerError
  else if code = codes.InvalidArgument then http.StatusBadRequest
  else if code = codes.DeadlineExceeded then http.StatusRequestTimeout
  else if code = codes.NotFound then http.StatusNotFound
  else if code = codes.AlreadyExists then http.StatusConflict
  else if code = codes.PermissionDenied then http.StatusForbidden
  else if code = codes.Unauthenticated then http.StatusUnauthorized
  else if code = codes.ResourceExhausted then http.StatusForbidden
  else if code = codes.FailedPrecondition then http.StatusPreconditionFailed
  else if code = codes.Aborted then http.StatusConflict
  else if code = codes.OutOfRange then http.StatusBadRequest
  else if code = codes.Unimplemented then http.StatusNotImplemented
  else if code = codes.Internal then http.StatusInternalServerError
  else if code = codes.Unavailable then http.StatusServiceUnavailable
  else if code = codes.DataLoss then http.StatusInternalServerError
  else http.StatusInternalServerError

/-- The 17 defined gRPC status code values (0 through 16). -/
def definedCodes : List Nat :=
  [codes.OK, codes.Canceled, codes.Unknown, codes.InvalidArgument,
   codes.DeadlineExceeded, codes.NotFound, codes.AlreadyExists,
   codes.PermissionDenied, codes.ResourceExhausted, codes.FailedPrecondition,
   codes.Aborted, codes.OutOfRange, codes.Unimplemented, codes.Internal,
   codes.Unavailable, codes.DataLoss, codes.Unauthenticated]

/-- An HTTP header (or trailer) set, modelled as the ordered list of
(key, value) pairs in insertion order (the Go `http.Header` is a
`map[string][]string`; only the multiset of entries is observable). -/
abbrev Header := List (String × String)

/-- Embedding of `Header.Del`: remove every entry with the given key. -/
def headerDel (h : Header) (k : String) : Header :=
  h.filter (fun kv => !(kv.1 == k))

/-- Embedding of `Header.Set`: replace all entries for the key with the single value. -/
def headerSet (h : Header) (k v : String) : Header :=
  headerDel h k ++ [(k, v)]

/-- Embedding of `Header.Add`: append an entry for the key. -/
def headerAdd (h : Header) (k v : String) : Header :=
  h ++ [(k, v)]

/-- The values stored in the header set under a key. -/
def headerValues (h : Header) (k : String) : List String :=
  (h.filter (fun kv => kv.1 == k)).map (fun kv => kv.2)

/-- The observable state of an `http.ResponseWriter`: the response header
set, the status code written by the first `WriteHeader` call (later calls
are ignored), the body bytes, the number of body writes, and the trailer
entries set after the body. -/
structure ResponseWriter where
  header : Header
  wroteStatus : Option Nat
  body : String
  writes : Nat
  trailer : Header
  deriving Repr, DecidableEq

/-- Embedding of `WriteHeader`: the first call fixes the status; later calls are
ignored (Go logs a "superfluous WriteHeader" diagnostic). -/
def ResponseWriter.writeHeader (w : ResponseWriter) (code : Nat) : ResponseWriter :=
  match w.wroteStatus with
  | some _ => w
  | none => { w with wroteStatus := some code }

/-- Embedding of `Write` (also `io.WriteString`): implicitly `WriteHeader(200)` when no
status was written yet, then append the bytes to the body. -/
def ResponseWriter.write (w : ResponseWriter) (s : String) : ResponseWriter :=
  let w1 := w.writeHeader 200
  { w1 with body := w1.body ++ s, writes := w1.writes + 1 }

/-- The `errorInfo` message of `runtime/errors.go`: `code` is an `int32`,
`message` and `status` strings, `details` a sequence of opaque `Any`
records (modelled as strings). -/
structure ErrorInfo where
  code : Int
  message : String
  status : String
  details : List String
  deriving Repr, DecidableEq

/-- The `errorBody` envelope of `runtime/errors.go`: a single `error`
member. -/
structure ErrorBody where
  error : ErrorInfo
  deriving Repr, DecidableEq

/-- A `Marshaler`: reports a content type and serializes an `errorBody`
to bytes or fails (`none` models a non-nil Go error from `Marshal`). -/
structure Marshaler where
  contentType : String
  marshal : ErrorBody → Option String

/-- A gRPC `*status.Status`: numeric code, message, detail records. -/
structure GrpcStatus where
  code : Nat
  message : String
  details : List String
  deriving Repr, DecidableEq

/-- A Go `error` value as seen by the renderer: its `Error()` text and
the gRPC status it carries, when `status.FromError` recognizes one. -/
structure GoError where
  msg : String
  grpcStatus : Option GrpcStatus
  deriving Repr, DecidableEq

/-- Embedding of `ServerMetadata` from the runtime package: pending response header
entries and pending trailer entries gathered during the call. -/
structure ServerMetadata where
  headerMD : List (String × String)
  trailerMD : List (String × String)
  deriving Repr, DecidableEq

/-- A request context, carrying the `ServerMetadata` when one was
attached. -/
structure Context where
  serverMetadata : Option ServerMetadata
  deriving Repr, DecidableEq

/-- The `ServeMux`: none of its state is consulted by the error
renderer, so it is modelled as an empty structure. -/
structure ServeMux where
  deriving Repr, DecidableEq

/-- An `*http.Request`; `DefaultHTTPError` and `DefaultOtherErrorHandler`
both bind it to `_`, so no field is ever read. -/
structure Request where
  method : String
  requestURI : String
  deriving Repr, DecidableEq

/-- The Go conversion `int32(x)` applied to a `uint32` code value. -/
def int32ofUint32 (n : Nat) : Int :=
  let m : Nat := n % 2 ^ 32
  if m < 2 ^ 31 then (m : Int) else (m : Int) - 2 ^ 32

/-- Embedding of `status.FromError(err)` followed by the fallback of
`runtime/errors.go`: when the error carries no recognized status
(`!ok`), synthesize `status.New(codes.Unknown, err.Error())`. -/
def statusFromError (err : GoError) : GrpcStatus :=
  match err.grpcStatus with
  | some s => s
  | none => { code := codes.Unknown, message := err.msg, details := [] }

/-- The `errorBody` built by `DefaultHTTPError` from the extracted
status: proto code (as `int32`), message, details, and the status token
via `HTTPStatusStringFromCode`. -/
def errorBodyOf (err : GoError) : ErrorBody :=
  let s := statusFromError err
  { error := { code := int32ofUint32 s.code
               message := s.message
               status := HTTPStatusStringFromCode s.code
               details := s.details } }

/-- Embedding of `ServerMetadataFromContext`: returns the attached metadata and `true`,
or the zero `ServerMetadata` and `false` when none is attached. -/
def ServerMetadataFromContext (ctx : Context) : ServerMetadata × Bool :=
  match ctx.serverMetadata with
  | some md => (md, true)
  | none => ({ headerMD := [], trailerMD := [] }, false)

/-- Modelled from the spec: `handleForwardResponseServerMetadata` (repo
code outside `runtime/errors.go`) copies the pending header entries of
the metadata onto the response header set; the mux is not consulted. -/
def handleForwardResponseServerMetadata (w : ResponseWriter) (_mux : ServeMux)
    (md : ServerMetadata) : ResponseWriter :=
  { w with header := md.headerMD.foldl (fun h kv => headerAdd h kv.1 kv.2) w.header }

/-- Modelled from the spec: `handleForwardResponseTrailerHeader` (repo
code outside `runtime/errors.go`) declares the names of the pending
trailer entries via the "Trailer" response header. -/
def handleForwardResponseTrailerHeader (w : ResponseWriter)
    (md : ServerMetadata) : ResponseWriter :=
  { w with header := md.trailerMD.foldl (fun h kv => headerAdd h "Trailer" kv.1) w.header }

/-- Modelled from the spec: `handleForwardResponseTrailer` (repo code
outside `runtime/errors.go`) copies the pending trailer entries onto the
response trailer set. -/
def handleForwardResponseTrailer (w : ResponseWriter)
    (md : ServerMetadata) : ResponseWriter :=
  { w with trailer := md.trailerMD.foldl (fun h kv => headerAdd h kv.1 kv.2) w.trailer }

/-- The fixed fallback body of `DefaultHTTPError` (the local `fallback`
constant): `\x7b"error": "failed to marshal error message"\x7d`. -/
def fallback : String := "\x7b\"error\": \"failed to marshal error message\"\x7d"

/-- Embedding of `DefaultHTTPError` from `runtime/errors.go`: delete the "Trailer"
header, set Content-Type from the marshaler, build the error envelope
from the extracted (or synthesized UNKNOWN) status, marshal it; on
marshal failure write HTTP 500 and the fixed fallback body and stop; on
success forward metadata headers, declare trailers, write HTTP 200 and
the body, then forward trailer entries. Diagnostic logging is omitted. -/
def DefaultHTTPError (ctx : Context) (mux : ServeMux) (marshaler : Marshaler)
    (w : ResponseWriter) (_req : Request) (err : GoError) : ResponseWriter :=
  let w := { w with
    header := headerSet (headerDel w.header "Trailer") "Content-Type" marshaler.contentType }
  let body := errorBodyOf err
  match marshaler.marshal body with
  | none => (w.writeHeader http.StatusInternalServerError).write fallback
  | some buf =>
    let md := (ServerMetadataFromContext ctx).1
    let w := handleForwardResponseServerMetadata w mux md
    let w := handleForwardResponseTrailerHeader w md
    let w := (w.writeHeader http.StatusOK).write buf
    handleForwardResponseTrailer w md

/-- The Go stdlib `http.Error`: set Content-Type to plain text, write
the status code, then the message followed by a newline
(`fmt.Fprintln`). -/
def httpError (w : ResponseWriter) (error : String) (code : Nat) : ResponseWriter :=
  let w := { w with header := headerSet w.header "Content-Type" "text/plain; charset=utf-8" }
  let w := { w with header := headerSet w.header "X-Content-Type-Options" "nosniff" }
  (w.writeHeader code).write (error ++ "\n")

/-- Embedding of `DefaultOtherErrorHandler` from `runtime/errors.go`: simply
`http.Error(w, msg, code)`; the request is ignored. -/
def DefaultOtherErrorHandler (w : ResponseWriter) (_req : Request)
    (msg : String) (code : Nat) : ResponseWriter :=
  httpError w msg code

-- Concrete fixtures used by the witness theorems.

/-- A marshaler that always succeeds with a fixed byte string. -/
def okMarshaler : Marshaler :=
  { contentType := "application/json", marshal := fun _ => some "serialized" }

/-- A marshaler that always fails. -/
def failMarshaler : Marshaler :=
  { contentType := "application/json", marshal := fun _ => none }

/-- A fresh response writer. -/
def freshWriter : ResponseWriter :=
  { header := [], wroteStatus := none, body := "", writes := 0, trailer := [] }

/-- A sample request. -/
def sampleRequest : Request := { method := "GET", requestURI := "/v1/x" }

/-- A context with no ServerMetadata attached. -/
def emptyContext : Context := { serverMetadata := none }

/-- An error carrying no recognized gRPC status, with text "boom". -/
def boomError : GoError := { msg := "boom", grpcStatus := none }

end GrpcGateway

namespace GrpcGateway

/-- C1: for every one of the 17 defined StatusCode values,
`HTTPStatusFromCode` returns exactly the HTTP status integer of the
mapping table in the spec. -/
theorem C1_http_status_table :
    HTTPStatusFromCode codes.OK = 200 ∧
    HTTPStatusFromCode codes.Canceled = 408 ∧
    HTTPStatusFromCode codes.Unknown = 500 ∧
    HTTPStatusFromCode codes.InvalidArgument = 400 ∧
    HTTPStatusFromCode codes.DeadlineExceeded = 408 ∧
    HTTPStatusFromCode codes.NotFound = 404 ∧
    HTTPStatusFromCode codes.AlreadyExists = 409 ∧
    HTTPStatusFromCode codes.PermissionDenied = 403 ∧
    HTTPStatusFromCode codes.Unauthenticated = 401 ∧
    HTTPStatusFromCode codes.ResourceExhausted = 403 ∧
    HTTPStatusFromCode codes.FailedPrecondition = 412 ∧
    HTTPStatusFromCode codes.Aborted = 409 ∧
    HTTPStatusFromCode codes.OutOfRange = 400 ∧
    HTTPStatusFromCode codes.Unimplemented = 501 ∧
    HTTPStatusFromCode codes.Internal = 500 ∧
    HTTPStatusFromCode codes.Unavailable = 503 ∧
    HTTPStatusFromCode codes.DataLoss = 500 := by
  decide

/-- C5: for every one of the 17 defined StatusCode values,
`HTTPStatusStringFromCode` returns the enumeration name itself as the
token, except UNIMPLEMENTED → "NOT_IMPLEMENTED" and CANCELLED →
"CANCELLED" (double-L spelling preserved verbatim). -/
theorem C5_status_token_table :
    HTTPStatusStringFromCode codes.OK = "OK" ∧
    HTTPStatusStringFromCode codes.Canceled = "CANCELLED" ∧
    HTTPStatusStringFromCode codes.Unknown = "UNKNOWN" ∧
    HTTPStatusStringFromCode codes.InvalidArgument = "INVALID_ARGUMENT" ∧
    HTTPStatusStringFromCode codes.DeadlineExceeded = "DEADLINE_EXCEEDED" ∧
    HTTPStatusStringFromCode codes.NotFound = "NOT_FOUND" ∧
    HTTPStatusStringFromCode codes.AlreadyExists = "ALREADY_EXISTS" ∧
    HTTPStatusStringFromCode codes.PermissionDenied = "PERMISSION_DENIED" ∧
    HTTPStatusStringFromCode codes.Unauthenticated = "UNAUTHENTICATED" ∧
    HTTPStatusStringFromCode codes.ResourceExhausted = "RESOURCE_EXHAUSTED" ∧
    HTTPStatusStringFromCode codes.FailedPrecondition = "FAILED_PRECONDITION" ∧
    HTTPStatusStringFromCode codes.Aborted = "ABORTED" ∧
    HTTPStatusStringFromCode codes.OutOfRange = "OUT_OF_RANGE" ∧
    HTTPStatusStringFromCode codes.Unimplemented = "NOT_IMPLEMENTED" ∧
    HTTPStatusStringFromCode codes.Internal = "INTERNAL" ∧
    HTTPStatusStringFromCode codes.Unavailable = "UNAVAILABLE" ∧
    HTTPStatusStringFromCode codes.DataLoss = "DATA_LOSS" := by
  decide

/-- C6: for every code value outside the 17-value enumeration,
`HTTPStatusStringFromCode` returns "INTERNAL" and `HTTPStatusFromCode`
returns 500; both functions are total over all code values (they are
total Lean functions by construction). -/
theorem C6_unknown_code_fallback (n : Nat) (h : n ∉ definedCodes) :
    HTTPStatusStringFromCode n = "INTERNAL" ∧ HTTPStatusFromCode n = 500 := by
  simp [definedCodes, codes.OK, codes.Canceled, codes.Unknown,
    codes.InvalidArgument, codes.DeadlineExceeded, codes.NotFound,
    codes.AlreadyExists, codes.PermissionDenied, codes.ResourceExhausted,
    codes.FailedPrecondition, codes.Aborted, codes.OutOfRange,
    codes.Unimplemented, codes.Internal, codes.Unavailable, codes.DataLoss,
    codes.Unauthenticated] at h
  obtain ⟨h0, h1, h2, h3, h4, h5, h6, h7, h8, h9, h10, h11, h12, h13, h14,
    h15, h16⟩ := h
  refine ⟨?_, ?_⟩ <;>
    simp [HTTPStatusStringFromCode, HTTPStatusFromCode, codes.OK,
      codes.Canceled, codes.Unknown, codes.InvalidArgument,
      codes.DeadlineExceeded, codes.NotFound, codes.AlreadyExists,
      codes.PermissionDenied, codes.ResourceExhausted,
      codes.FailedPrecondition, codes.Aborted, codes.OutOfRange,
      codes.Unimplemented, codes.Internal, codes.Unavailable, codes.DataLoss,
      codes.Unauthenticated, Internal, http.StatusInternalServerError,
      h0, h1, h2, h3, h4, h5, h6, h7, h8, h9, h10, h11, h12, h13, h14, h15, h16]

/-- Witness for C6 at the concrete out-of-range code 17. -/
theorem C6_unknown_code_fallback_witness :
    HTTPStatusStringFromCode 17 = "INTERNAL" ∧ HTTPStatusFromCode 17 = 500 :=
  C6_unknown_code_fallback 17 (by decide)

-- Helper lemmas about the response-writer operations.

theorem writeHeader_header_eq (w : ResponseWriter) (c : Nat) :
    (w.writeHeader c).header = w.header := by
  cases h : w.wroteStatus <;> simp [ResponseWriter.writeHeader, h]

theorem write_header_eq (w : ResponseWriter) (s : String) :
    (w.write s).header = w.header := by
  simp [ResponseWriter.write, writeHeader_header_eq]

theorem foldl_headerAdd (l : List (String × String)) (h : Header) :
    l.foldl (fun acc kv => headerAdd acc kv.1 kv.2) h = h ++ l := by
  induction l generalizing h with
  | nil => simp
  | cons kv t ih =>
    rw [List.foldl_cons, ih]
    simp [headerAdd, List.append_assoc]

theorem foldl_trailerDecls (l : List (String × String)) (h : Header) :
    l.foldl (fun acc kv => headerAdd acc "Trailer" kv.1) h
      = h ++ l.map (fun kv => ("Trailer", kv.1)) := by
  induction l generalizing h with
  | nil => simp
  | cons kv t ih =>
    rw [List.foldl_cons, ih]
    simp [headerAdd, List.append_assoc]

/-- C2: for every error whose envelope serializes successfully,
`DefaultHTTPError` writes HTTP status 200, regardless of which RPC
status code the error carries; the failure is communicated only via the
body. -/
theorem C2_success_status_200 (ctx : Context) (mux : ServeMux) (m : Marshaler)
    (w : ResponseWriter) (req : Request) (err : GoError) (buf : String)
    (hm : m.marshal (errorBodyOf err) = some buf) (hw : w.wroteStatus = none) :
    (DefaultHTTPError ctx mux m w req err).wroteStatus = some 200 := by
  simp [DefaultHTTPError, hm, handleForwardResponseServerMetadata,
    handleForwardResponseTrailerHeader, handleForwardResponseTrailer,
    ResponseWriter.writeHeader, ResponseWriter.write, http.StatusOK, hw]

/-- Witness for C2 on a fresh writer with an always-succeeding
marshaler. -/
theorem C2_success_status_200_witness :
    okMarshaler.marshal (errorBodyOf boomError) = some "serialized" ∧
    freshWriter.wroteStatus = none ∧
    (DefaultHTTPError emptyContext ServeMux.mk okMarshaler freshWriter
      sampleRequest boomError).wroteStatus = some 200 :=
  ⟨rfl, rfl, C2_success_status_200 emptyContext ServeMux.mk okMarshaler
    freshWriter sampleRequest boomError "serialized" rfl rfl⟩

/-- C3: when the marshaler fails, `DefaultHTTPError` writes HTTP 500
with exactly the fixed fallback body and stops: one single write, no
metadata headers or trailers forwarded, and no header beyond the
Content-Type (and Trailer deletion) assigned earlier. -/
theorem C3_marshal_failure_fallback (ctx : Context) (mux : ServeMux)
    (m : Marshaler) (w : ResponseWriter) (req : Request) (err : GoError)
    (hm : m.marshal (errorBodyOf err) = none) (hw : w.wroteStatus = none)
    (hb : w.body = "") (hn : w.writes = 0) :
    (DefaultHTTPError ctx mux m w req err).wroteStatus = some 500 ∧
    (DefaultHTTPError ctx mux m w req err).body = fallback ∧
    (DefaultHTTPError ctx mux m w req err).writes = 1 ∧
    (DefaultHTTPError ctx mux m w req err).trailer = w.trailer ∧
    (DefaultHTTPError ctx mux m w req err).header =
      headerSet (headerDel w.header "Trailer") "Content-Type" m.contentType := by
  refine ⟨?_, ?_, ?_, ?_, ?_⟩ <;>
    simp [DefaultHTTPError, hm, ResponseWriter.writeHeader,
      ResponseWriter.write, http.StatusInternalServerError, hw, hb, hn]

/-- Witness for C3 on a fresh writer with an always-failing marshaler. -/
theorem C3_marshal_failure_fallback_witness :
    (DefaultHTTPError emptyContext ServeMux.mk failMarshaler freshWriter
      sampleRequest boomError).wroteStatus = some 500 ∧
    (DefaultHTTPError emptyContext ServeMux.mk failMarshaler freshWriter
      sampleRequest boomError).body = fallback ∧
    (DefaultHTTPError emptyContext ServeMux.mk failMarshaler freshWriter
      sampleRequest boomError).writes = 1 ∧
    (DefaultHTTPError emptyContext ServeMux.mk failMarshaler freshWriter
      sampleRequest boomError).trailer = freshWriter.trailer ∧
    (DefaultHTTPError emptyContext ServeMux.mk failMarshaler freshWriter
      sampleRequest boomError).header =
      headerSet (headerDel freshWriter.header "Trailer") "Content-Type"
        failMarshaler.contentType :=
  C3_marshal_failure_fallback emptyContext ServeMux.mk failMarshaler
    freshWriter sampleRequest boomError rfl rfl rfl rfl

/-- C4: for every error from which no RPC status can be extracted, the
envelope `DefaultHTTPError` builds (via `errorBodyOf`) carries code 2
(UNKNOWN), message `err.Error()`, and status token "UNKNOWN". -/
theorem C4_unknown_envelope (err : GoError) (h : err.grpcStatus = none) :
    (errorBodyOf err).error.code = 2 ∧
    (errorBodyOf err).error.message = err.msg ∧
    (errorBodyOf err).error.status = "UNKNOWN" := by
  refine ⟨?_, ?_, ?_⟩ <;>
    simp [errorBodyOf, statusFromError, h, int32ofUint32, codes.Unknown,
      HTTPStatusStringFromCode, codes.OK, codes.Canceled, Unknown]

/-- Witness for C4 on the statusless error with text "boom". -/
theorem C4_unknown_envelope_witness :
    (errorBodyOf boomError).error.code = 2 ∧
    (errorBodyOf boomError).error.message = boomError.msg ∧
    (errorBodyOf boomError).error.status = "UNKNOWN" :=
  C4_unknown_envelope boomError rfl

/-- C7: `DefaultOtherErrorHandler` writes the message as a plain-text
body (message plus a trailing newline, Content-Type "text/plain;
charset=utf-8", no envelope structure) with the given numeric HTTP
status. -/
theorem C7_other_error_plaintext (w : ResponseWriter) (req : Request)
    (msg : String) (code : Nat)
    (hw : w.wroteStatus = none) (hb : w.body = "") (hh : w.header = []) :
    (DefaultOtherErrorHandler w req msg code).wroteStatus = some code ∧
    (DefaultOtherErrorHandler w req msg code).body = msg ++ "\n" ∧
    headerValues (DefaultOtherErrorHandler w req msg code).header "Content-Type"
      = ["text/plain; charset=utf-8"] := by
  refine ⟨?_, ?_, ?_⟩ <;>
    simp [DefaultOtherErrorHandler, httpError, ResponseWriter.writeHeader,
      ResponseWriter.write, headerSet, headerDel, headerValues, hw, hb, hh]

/-- Witness for C7 with message "not allowed" and code 405. -/
theorem C7_other_error_plaintext_witness :
    (DefaultOtherErrorHandler freshWriter sampleRequest "not allowed"
      405).wroteStatus = some 405 ∧
    (DefaultOtherErrorHandler freshWriter sampleRequest "not allowed"
      405).body = "not allowed" ++ "\n" ∧
    headerValues (DefaultOtherErrorHandler freshWriter sampleRequest
      "not allowed" 405).header "Content-Type"
      = ["text/plain; charset=utf-8"] :=
  C7_other_error_plaintext freshWriter sampleRequest "not allowed" 405
    rfl rfl rfl

/-- C8: when the context carries no ServerMetadata and the envelope
serializes, `DefaultHTTPError` still completes (it is a total function,
so it cannot panic or abort): the body is written exactly once with
status 200, and the response carries no headers or trailers beyond the
Content-Type assigned earlier and an empty Trailer declaration. -/
theorem C8_missing_metadata (ctx : Context) (mux : ServeMux) (m : Marshaler)
    (w : ResponseWriter) (req : Request) (err : GoError) (buf : String)
    (hmd : ctx.serverMetadata = none)
    (hm : m.marshal (errorBodyOf err) = some buf)
    (hw : w.wroteStatus = none) (hn : w.writes = 0) :
    (DefaultHTTPError ctx mux m w req err).writes = 1 ∧
    (DefaultHTTPError ctx mux m w req err).wroteStatus = some 200 ∧
    (DefaultHTTPError ctx mux m w req err).header =
      headerSet (headerDel w.header "Trailer") "Content-Type" m.contentType ∧
    (DefaultHTTPError ctx mux m w req err).trailer = w.trailer := by
  refine ⟨?_, ?_, ?_, ?_⟩ <;>
    simp [DefaultHTTPError, hm, hmd, ServerMetadataFromContext,
      handleForwardResponseServerMetadata, handleForwardResponseTrailerHeader,
      handleForwardResponseTrailer, ResponseWriter.writeHeader,
      ResponseWriter.write, http.StatusOK, hw, hn]

/-- Witness for C8 on a metadata-free context. -/
theorem C8_missing_metadata_witness :
    (DefaultHTTPError emptyContext ServeMux.mk okMarshaler freshWriter
      sampleRequest boomError).writes = 1 ∧
    (DefaultHTTPError emptyContext ServeMux.mk okMarshaler freshWriter
      sampleRequest boomError).wroteStatus = some 200 ∧
    (DefaultHTTPError emptyContext ServeMux.mk okMarshaler freshWriter
      sampleRequest boomError).header =
      headerSet (headerDel freshWriter.header "Trailer") "Content-Type"
        okMarshaler.contentType ∧
    (DefaultHTTPError emptyContext ServeMux.mk okMarshaler freshWriter
      sampleRequest boomError).trailer = freshWriter.trailer :=
  C8_missing_metadata emptyContext ServeMux.mk okMarshaler freshWriter
    sampleRequest boomError "serialized" rfl rfl rfl rfl

/-- C9: on every invocation and on both paths, `DefaultHTTPError` first
deletes any previously declared "Trailer" header and sets Content-Type
from the marshaler: its final header set extends
`headerSet (headerDel w.header "Trailer") "Content-Type" ct` on the
right (later steps only append entries). -/
theorem C9_header_prep_first (ctx : Context) (mux : ServeMux) (m : Marshaler)
    (w : ResponseWriter) (req : Request) (err : GoError) :
    ∃ extra : Header, (DefaultHTTPError ctx mux m w req err).header =
      headerSet (headerDel w.header "Trailer") "Content-Type" m.contentType
        ++ extra := by
  cases hm : m.marshal (errorBodyOf err) with
  | none =>
    refine ⟨[], ?_⟩
    simp [DefaultHTTPError, hm, write_header_eq, writeHeader_header_eq]
  | some buf =>
    refine ⟨(ServerMetadataFromContext ctx).1.headerMD ++
      ((ServerMetadataFromContext ctx).1.trailerMD.map
        (fun kv => ("Trailer", kv.1))), ?_⟩
    simp [DefaultHTTPError, hm, handleForwardResponseServerMetadata,
      handleForwardResponseTrailerHeader, handleForwardResponseTrailer,
      foldl_headerAdd, foldl_trailerDecls, write_header_eq,
      writeHeader_header_eq, List.append_assoc]

/-- C10: both `DefaultHTTPError` and `DefaultOtherErrorHandler` bind
their request argument to `_` and never read it: with all other
arguments equal, two invocations with different requests produce
identical responses. -/
theorem C10_request_ignored (ctx : Context) (mux : ServeMux) (m : Marshaler)
    (w : ResponseWriter) (err : GoError) (msg : String) (code : Nat)
    (req1 req2 : Request) :
    DefaultHTTPError ctx mux m w req1 err = DefaultHTTPError ctx mux m w req2 err ∧
    DefaultOtherErrorHandler w req1 msg code = DefaultOtherErrorHandler w req2 msg code :=
  ⟨rfl, rfl⟩

end GrpcGateway
